import Mathlib

/-!
# WatchParty party-state synchronization engine: a shallow embedding

This file embeds the state-synchronization core of the WatchParty
application (React/TypeScript, `App` in the main module together with the
`Chat` component and the Gemini service wrapper) and proves properties of
the embedded operations.

Modelling conventions:
* Playback positions (`currentTime`) are modelled as rationals (`Rat`);
  the only arithmetic the code performs on them is subtraction, absolute
  value and comparison against the constant `2`.
* JavaScript timestamps (`Date.now()`) are natural numbers (milliseconds).
* A `Partial<SyncedPartyState>` object — and likewise a value parsed from
  the storage medium, whose fields may be missing — is a record of
  `Option` fields, `none` meaning the key is absent.  The `videoSource`
  field can additionally be present-but-`null`, hence its doubled option.
* The shared medium (`localStorage`) is an association list from keys to
  stored states; `setItem` prepends, `lookup` finds the newest binding.
-/

namespace WatchParty

/-- `VideoSourceType` from `types.ts`. -/
inductive VideoSourceType where
  | FILE
  | YOUTUBE
  | DIRECT_URL
deriving DecidableEq, Repr

/-- `VideoSource` from `types.ts`. -/
structure VideoSource where
  type : VideoSourceType
  url : String
  name : String
deriving DecidableEq, Repr

/-- `ChatMessage` from `types.ts`.  The optional boolean flags `isSystem`
and `isAi` are modelled as booleans defaulting to `false`, which is how
JavaScript truthiness treats an absent flag. -/
structure ChatMessage where
  id : String
  sender : String
  text : String
  timestamp : Nat
  isSystem : Bool := false
  isAi : Bool := false
deriving DecidableEq, Repr

/-- `User` from `types.ts`. -/
structure User where
  id : String
  name : String
  isHost : Bool := false
deriving DecidableEq, Repr

/-- A possibly-partial `SyncedPartyState`: the shape of the objects that
are written to and parsed back from the shared medium, and of the
`Partial<SyncedPartyState>` argument of `updateSyncedState`.  Every field
is optional because the first write through `updateSyncedState` spreads
over `{}`.  For `videoSource`, the outer option is key presence and the
inner option is the JavaScript `null`. -/
structure PartialState where
  partyCode : Option String := none
  hostId : Option String := none
  videoSource : Option (Option VideoSource) := none
  isPlaying : Option Bool := none
  currentTime : Option Rat := none
  lastUpdateTimestamp : Option Nat := none
  users : Option (List User) := none
  messages : Option (List ChatMessage) := none
deriving DecidableEq, Repr

/-- The client-local view that `syncStateFromStorage` updates: the React
state variables `videoSource`, `isPlaying`, `currentTime` (the locally
observed playback position), `seekRequest`, `users` and `messages`. -/
structure LocalView where
  videoSource : Option VideoSource := none
  isPlaying : Bool := false
  currentTime : Rat := 0
  seekRequest : Option Rat := none
  users : List User := []
  messages : List ChatMessage := []
deriving DecidableEq, Repr

/-- `syncStateFromStorage` from `App`: applies an incoming state to the
local view.

```
if (state.videoSource) setVideoSource(state.videoSource);
if (state.isPlaying !== undefined) setIsPlaying(state.isPlaying);
if (state.currentTime && Math.abs(state.currentTime - currentTime) > 2) {
   setSeekRequest(state.currentTime);
}
if (state.users) setUsers(state.users);
if (state.messages) setMessages(state.messages);
```

JavaScript truthiness is rendered exactly: `state.videoSource` is truthy
iff present and non-null; `state.currentTime` is truthy iff present and
non-zero; arrays (`users`, `messages`) are truthy iff present (an empty
array is truthy). -/
def syncStateFromStorage (view : LocalView) (state : PartialState) : LocalView :=
  { videoSource :=
      match state.videoSource with
      | some (some src) => some src
      | _ => view.videoSource
    isPlaying :=
      match state.isPlaying with
      | some b => b
      | none => view.isPlaying
    currentTime := view.currentTime
    seekRequest :=
      match state.currentTime with
      | some t =>
          if t ≠ 0 ∧ |t - view.currentTime| > 2 then some t else view.seekRequest
      | none => view.seekRequest
    users :=
      match state.users with
      | some us => us
      | none => view.users
    messages :=
      match state.messages with
      | some ms => ms
      | none => view.messages }

/-- The shared medium backing the transport: `localStorage`, as a list of
key/value bindings, newest first. -/
def Medium := List (String × PartialState)

/-- `localStorage.getItem`. -/
def Medium.getItem (m : Medium) (k : String) : Option PartialState :=
  List.lookup k m

/-- `localStorage.setItem`: the newest binding shadows older ones. -/
def Medium.setItem (m : Medium) (k : String) (v : PartialState) : Medium :=
  (k, v) :: m

/-- The key naming convention: fixed namespace prefix plus the party
code. -/
def storageKey (code : String) : String :=
  "syncstream_party_" ++ code

/-- The object spread `{ ...currentState, ...newState }`: a key present
in `newState` wins, otherwise the key of `currentState` (if any) is
kept. -/
def spreadState (currentState newState : PartialState) : PartialState :=
  { partyCode := newState.partyCode <|> currentState.partyCode
    hostId := newState.hostId <|> currentState.hostId
    videoSource := newState.videoSource <|> currentState.videoSource
    isPlaying := newState.isPlaying <|> currentState.isPlaying
    currentTime := newState.currentTime <|> currentState.currentTime
    lastUpdateTimestamp := newState.lastUpdateTimestamp <|> currentState.lastUpdateTimestamp
    users := newState.users <|> currentState.users
    messages := newState.messages <|> currentState.messages }

/-- The state object `updateSyncedState` builds and writes:
`{ ...currentState, ...newState, partyCode, lastUpdateTimestamp: Date.now() }`,
where `currentState` is the parse of the current medium contents for the
party's key (`{}` when absent). -/
def publishedState (medium : Medium) (partyCode : String) (newState : PartialState)
    (now : Nat) : PartialState :=
  let currentState := (medium.getItem (storageKey partyCode)).getD {}
  { spreadState currentState newState with
      partyCode := some partyCode
      lastUpdateTimestamp := some now }

/-- `updateSyncedState` from `App`: read-modify-write the medium, then
immediately apply the written state to the sender's own view via
`syncStateFromStorage`. -/
def updateSyncedState (medium : Medium) (view : LocalView) (partyCode : String)
    (newState : PartialState) (now : Nat) : Medium × LocalView :=
  let updated := publishedState medium partyCode newState now
  (medium.setItem (storageKey partyCode) updated, syncStateFromStorage view updated)

/-- JavaScript `String.prototype.toUpperCase`, on the ASCII range the
application's inputs use. -/
def jsToUpper (s : String) : String :=
  ⟨s.data.map Char.toUpper⟩

/-- JavaScript `String.prototype.trim`: strip leading and trailing
whitespace. -/
def jsTrim (s : String) : String :=
  ⟨((s.data.dropWhile Char.isWhitespace).reverse.dropWhile Char.isWhitespace).reverse⟩

/-- The system chat message announcing a join, built in `joinParty`:
`{ id: Date.now().toString(), sender: 'System', text: `… joined the party.`, … }`. -/
def joinMessage (userName : String) (now : Nat) : ChatMessage :=
  { id := Nat.repr now
    sender := "System"
    text := userName ++ " joined the party."
    timestamp := now
    isSystem := true }

/-- Outcome of the `joinParty` handler as observed by the user. -/
inductive JoinOutcome where
  | ignored
  | notFound (errMsg : String)
  | joined
deriving DecidableEq, Repr

/-- `joinParty` from `App`.  Guard clauses: an all-whitespace code input is
ignored; an unknown code sets the join error `"Party not found. Check the
code."` and performs no write.  Otherwise the user is appended to the
roster, a system join message is appended to the chat log, and the new
state is written back.  (The source reads `state.users` and
`state.messages` without presence checks; the `getD []` defaults below are
exercised only on stored states the application itself never produces, and
every theorem about the present-key path carries explicit presence
hypotheses.) -/
def joinParty (medium : Medium) (currentUser : User) (joinCodeInput : String)
    (now : Nat) : Medium × JoinOutcome :=
  if jsTrim joinCodeInput = "" then (medium, .ignored)
  else
    let code := jsToUpper (jsTrim joinCodeInput)
    match medium.getItem (storageKey code) with
    | none => (medium, .notFound "Party not found. Check the code.")
    | some state =>
        let updatedUsers := state.users.getD [] ++ [currentUser]
        let joinMsg := joinMessage currentUser.name now
        let newState : PartialState :=
          { state with
              users := some updatedUsers
              messages := some (state.messages.getD [] ++ [joinMsg]) }
        (medium.setItem (storageKey code) newState, .joined)

/-- The creation system message written by `createParty` (fixed id
`sys_init`). -/
def creationLog (code : String) (now : Nat) : List ChatMessage :=
  [{ id := "sys_init"
     sender := "System"
     text := "Party created! Code: " ++ code
     timestamp := now
     isSystem := true }]

/-- The `initialState` record built by `createParty`. -/
def createdInitialState (currentUser : User) (code : String) (now : Nat) : PartialState :=
  { partyCode := some code
    hostId := some currentUser.id
    videoSource := some none
    isPlaying := some false
    currentTime := some 0
    lastUpdateTimestamp := some now
    users := some [{ currentUser with isHost := true }]
    messages := some (creationLog code now) }

/-- `createParty` from `App` (the random code is a parameter of the
model). -/
def createParty (medium : Medium) (currentUser : User) (code : String) (now : Nat) : Medium :=
  medium.setItem (storageKey code) (createdInitialState currentUser code now)

/-- A system message stamped with `Date.now().toString()` as id, as built
inline by `handleFileSelect`, `handleUrlSubmit`, `joinSample` and
`togglePlay`. -/
def systemMessage (text : String) (now : Nat) : ChatMessage :=
  { id := Nat.repr now
    sender := "System"
    text := text
    timestamp := now
    isSystem := true }

/-- The partial state `handleFileSelect` passes to `updateSyncedState`
once a file is selected. -/
def fileSelectUpdate (fileName url : String) (messages : List ChatMessage)
    (now : Nat) : PartialState :=
  { videoSource := some (some { type := .FILE, url := url, name := fileName })
    isPlaying := some false
    currentTime := some 0
    messages := some (messages ++ [systemMessage ("Changed video to " ++ fileName) now]) }

/-- `handleFileSelect` from `App`: `e.target.files?.[0]` is the head of
the file list (pairs of name and object URL); no file means no action. -/
def handleFileSelect (medium : Medium) (view : LocalView) (partyCode : String)
    (files : List (String × String)) (now : Nat) : Medium × LocalView :=
  match files.head? with
  | none => (medium, view)
  | some (fileName, url) =>
      updateSyncedState medium view partyCode
        (fileSelectUpdate fileName url view.messages now) now

/-- JavaScript `String.prototype.includes`: the pattern occurs as a
contiguous substring at some position. -/
def strIncludes (s pat : String) : Bool :=
  (List.range (s.data.length + 1)).any (fun i => pat.data.isPrefixOf (s.data.drop i))

/-- The partial state `handleUrlSubmit` passes to `updateSyncedState`,
including the YouTube URL detection. -/
def urlSubmitUpdate (urlInput : String) (messages : List ChatMessage)
    (now : Nat) : PartialState :=
  let type :=
    if strIncludes urlInput "youtube.com" || strIncludes urlInput "youtu.be" then
      VideoSourceType.YOUTUBE
    else
      VideoSourceType.DIRECT_URL
  { videoSource := some (some { type := type, url := urlInput, name := "Streamed Video" })
    isPlaying := some false
    currentTime := some 0
    messages := some (messages ++ [systemMessage "Loaded video from URL" now]) }

/-- `handleUrlSubmit` from `App`: empty input is ignored. -/
def handleUrlSubmit (medium : Medium) (view : LocalView) (partyCode : String)
    (urlInput : String) (now : Nat) : Medium × LocalView :=
  if urlInput = "" then (medium, view)
  else
    updateSyncedState medium view partyCode (urlSubmitUpdate urlInput view.messages now) now

/-- The partial state `joinSample` passes to `updateSyncedState`. -/
def joinSampleUpdate (sample : VideoSource) (messages : List ChatMessage)
    (now : Nat) : PartialState :=
  { videoSource := some (some sample)
    isPlaying := some false
    currentTime := some 0
    messages := some (messages ++ [systemMessage ("Loaded " ++ sample.name) now]) }

/-- `joinSample` from `App`. -/
def joinSample (medium : Medium) (view : LocalView) (partyCode : String)
    (sample : VideoSource) (now : Nat) : Medium × LocalView :=
  updateSyncedState medium view partyCode (joinSampleUpdate sample view.messages now) now

/-- The user chat message built by `handleSendMessage` (no `isSystem` or
`isAi` key, hence both default to false). -/
def userMessage (senderName text : String) (now : Nat) : ChatMessage :=
  { id := Nat.repr now, sender := senderName, text := text, timestamp := now }

/-- `handleSendMessage` from `App`: optimistic local append, then
publish. -/
def handleSendMessage (medium : Medium) (view : LocalView) (partyCode : String)
    (currentUser : User) (text : String) (now : Nat) : Medium × LocalView :=
  let newMessages := view.messages ++ [userMessage currentUser.name text now]
  updateSyncedState medium { view with messages := newMessages } partyCode
    { messages := some newMessages } now

/-- The AI chat message built by `handleAiResponse` (`sender: 'Gemini AI'`,
`isAi: true`). -/
def aiMessage (text : String) (now : Nat) : ChatMessage :=
  { id := Nat.repr now, sender := "Gemini AI", text := text, timestamp := now, isAi := true }

/-- `handleAiResponse` from `App`. -/
def handleAiResponse (medium : Medium) (view : LocalView) (partyCode : String)
    (text : String) (now : Nat) : Medium × LocalView :=
  let newMessages := view.messages ++ [aiMessage text now]
  updateSyncedState medium { view with messages := newMessages } partyCode
    { messages := some newMessages } now

/-- The outcome of awaiting the external responder call
(`generateContent`): either it throws, or it yields a response whose
`text` field may be absent. -/
inductive ResponderOutcome where
  | throws (err : String)
  | returns (text : Option String)
deriving DecidableEq, Repr

/-- The fixed text returned when no API key is configured. -/
def missingKeyText : String := "I can\x27t chat right now, my API key is missing!"

/-- The fixed placeholder substituted for an empty or absent response
text (`response.text || "Thinking..."`). -/
def emptyResponseText : String := "Thinking..."

/-- The fixed apology returned from the `catch` branch. -/
def errorFallbackText : String := "Whoops, I got distracted. What was that?"

/-- `generateAiChatResponse` from the Gemini service wrapper.  Total: it
never surfaces an exception — the `try`/`catch` converts a throwing
responder into the fixed apology, and a falsy (absent or empty) response
text into the fixed placeholder. -/
def generateAiChatResponse (apiKey : String) (outcome : ResponderOutcome) : String :=
  if apiKey = "" then missingKeyText
  else
    match outcome with
    | .throws _ => errorFallbackText
    | .returns none => emptyResponseText
    | .returns (some t) => if t = "" then emptyResponseText else t

/-- One `role`/`content` entry of the history passed to the responder. -/
structure HistoryEntry where
  role : String
  content : String
deriving DecidableEq, Repr

/-- JavaScript `Array.prototype.slice(-n)`: the last at-most-`n`
elements. -/
def takeLast (n : Nat) (l : List α) : List α :=
  l.drop (l.length - n)

/-- The history construction in `Chat.handleSubmit`:
`messages.filter(m => m.isAi || m.sender === currentUser.name).slice(-6)
.map(m => ({ role: m.isAi ? 'model' : 'user', content: m.text }))`. -/
def aiHistory (messages : List ChatMessage) (currentUser : User) : List HistoryEntry :=
  (takeLast 6 (messages.filter (fun m => m.isAi || m.sender == currentUser.name))).map
    (fun m => { role := if m.isAi then "model" else "user", content := m.text })

/-- The AI-mode branch of `Chat.handleSubmit` run to completion: guard on
blank input, send the user message, await the responder (its outcome is a
parameter), append exactly the one AI reply produced by
`generateAiChatResponse`. -/
def handleSubmitAi (medium : Medium) (view : LocalView) (partyCode : String)
    (currentUser : User) (input : String) (apiKey : String)
    (outcome : ResponderOutcome) (tsUser tsAi : Nat) : Medium × LocalView :=
  if jsTrim input = "" then (medium, view)
  else
    let sent := handleSendMessage medium view partyCode currentUser input tsUser
    let aiResponse := generateAiChatResponse apiKey outcome
    handleAiResponse sent.1 sent.2 partyCode aiResponse tsAi

/-- The message-producing operations of the engine: a user send
(`handleSendMessage`), an AI reply (`handleAiResponse`), and a system
announcement (join announcements and the system notices of
`handleFileSelect` / `handleUrlSubmit` / `joinSample` / `togglePlay`). -/
inductive ChatOp where
  | sendUser (u : User) (text : String)
  | aiReply (text : String)
  | announce (text : String)
deriving DecidableEq, Repr

/-- The message each operation appends, stamped with its `Date.now()`
millisecond timestamp; identical to what the corresponding handler
builds. -/
def opMessage : ChatOp → Nat → ChatMessage
  | .sendUser u text, ts => userMessage u.name text ts
  | .aiReply text, ts => aiMessage text ts
  | .announce text, ts => systemMessage text ts

/-- Run a sequence of message-producing operations (each paired with its
timestamp) over a chat log; every handler appends exactly its one
message. -/
def runChatOps (log : List ChatMessage) (ops : List (ChatOp × Nat)) : List ChatMessage :=
  ops.foldl (fun l p => l ++ [opMessage p.1 p.2]) log

/-- The history selection as claim C7 words it: messages authored by the
local user (their sender is the local user's display name and they are not
system messages) or by the responder itself (`isAi`); system messages and
other users' messages are excluded.  Stated only for comparison with the
code's `aiHistory`. -/
def claimedHistory (messages : List ChatMessage) (currentUser : User) : List HistoryEntry :=
  (takeLast 6 (messages.filter
      (fun m => m.isAi || (m.sender == currentUser.name && !m.isSystem)))).map
    (fun m => { role := if m.isAi then "model" else "user", content := m.text })

/-- The amended history selection: the most recent at-most-6 among the
messages that are AI messages or whose `sender` equals the local user's
display name, tagged `model` for AI messages and `user` otherwise, in
their original order.  "Most recent at-most-6" is written here as
reverse/take/reverse to be compared against the code's `slice(-6)`. -/
def amendedHistory (messages : List ChatMessage) (currentUser : User) : List HistoryEntry :=
  ((messages.filter (fun m => m.isAi || m.sender == currentUser.name)).reverse.take 6).reverse.map
    (fun m => { role := if m.isAi then "model" else "user", content := m.text })

/-- A local user whose display name collides with the `System` sender
string. -/
def sysNamedUser : User := { id := "u1", name := "System" }

/-- A system announcement message. -/
def sysAnnouncement : ChatMessage :=
  { id := "1", sender := "System", text := "hello", timestamp := 5, isSystem := true }

/-- The decimal digit characters of a natural number, most significant
first: a fuel-free restatement of `Nat.toDigitsCore` at base 10, proved
equal to `Nat.toDigits 10` below and used to reason about the
`Date.now().toString()` message ids. -/
def decChars (n : Nat) : List Char :=
  if _h : n < 10 then [Nat.digitChar n]
  else decChars (n / 10) ++ [Nat.digitChar (n % 10)]
termination_by n
decreasing_by exact Nat.div_lt_self (by omega) (by omega)

/-! ## Theorems -/

/-- **C10**: an incoming playback position of exactly `0` is treated the
same as an absent position on the remote observation path: the whole
merged view coincides with the view merged from a state without a
position, and in particular no forced local seek is issued, however large
the difference from the locally observed position. -/
theorem zero_position_treated_as_absent (view : LocalView) (state : PartialState) :
    syncStateFromStorage view { state with currentTime := some 0 }
        = syncStateFromStorage view { state with currentTime := none } ∧
    (syncStateFromStorage view { state with currentTime := some 0 }).seekRequest
        = view.seekRequest := by
  constructor <;> simp [syncStateFromStorage]

/-- **C1 counterexample**: the claimed biconditional fails.  With local
observed position `10` and incoming position `0`, the absolute difference
is `10 > 2`, yet the code issues no forced seek (the truthiness test
`state.currentTime &&` rejects `0`). -/
theorem drift_policy_iff_counterexample :
    |(0 : Rat) - 10| > 2 ∧
    (syncStateFromStorage { currentTime := 10, seekRequest := none }
        { currentTime := some 0 }).seekRequest = none := by
  refine ⟨by norm_num [abs], by simp [syncStateFromStorage]⟩

/-- **C1 (amended)**: on the remote observation path, starting from a view
with no pending seek request, a forced local seek to position `t` is
issued if and only if the incoming state carries playback position `t`,
`t` is nonzero, and the absolute difference from the locally observed
position strictly exceeds `2` seconds (strict `>`, so a delta of exactly
`2` forces nothing; `11.5` against local `10` forces nothing; `13.1`
against local `10` forces a seek to `13.1`). -/
theorem seek_forced_iff (view : LocalView) (state : PartialState) (t : Rat)
    (h : view.seekRequest = none) :
    (syncStateFromStorage view state).seekRequest = some t ↔
      state.currentTime = some t ∧ t ≠ 0 ∧ |t - view.currentTime| > 2 := by
  cases hc : state.currentTime with
  | none => simp [syncStateFromStorage, hc, h]
  | some u =>
      by_cases hcond : u ≠ 0 ∧ |u - view.currentTime| > 2
      · simp only [syncStateFromStorage, hc, if_pos hcond, Option.some.injEq]
        constructor
        · rintro rfl
          exact ⟨rfl, hcond⟩
        · rintro ⟨rfl, -⟩
          rfl
      · simp only [syncStateFromStorage, hc, if_neg hcond, h, Option.some.injEq]
        constructor
        · exact fun hx => Option.noConfusion hx
        · rintro ⟨rfl, h2, h3⟩
          exact absurd ⟨h2, h3⟩ hcond

/-- Witness for `seek_forced_iff` at the spec's own examples: local
position `10`, incoming `13.1` seeks to `13.1`; incoming `11.5` does not;
incoming `12` (delta exactly `2`) does not. -/
theorem seek_forced_iff_witness :
    (syncStateFromStorage { currentTime := 10, seekRequest := none }
        { currentTime := some (13.1 : Rat) }).seekRequest = some 13.1 ∧
    (syncStateFromStorage { currentTime := 10, seekRequest := none }
        { currentTime := some (11.5 : Rat) }).seekRequest ≠ some 11.5 ∧
    (syncStateFromStorage { currentTime := 10, seekRequest := none }
        { currentTime := some (12 : Rat) }).seekRequest ≠ some 12 := by
  refine ⟨(seek_forced_iff _ _ _ rfl).mpr ⟨rfl, by norm_num [abs]⟩, fun hcl => ?_, fun hcl => ?_⟩
  · rcases (seek_forced_iff _ _ _ rfl).mp hcl with ⟨-, -, habs⟩
    norm_num [abs] at habs
  · rcases (seek_forced_iff _ _ _ rfl).mp hcl with ⟨-, -, habs⟩
    norm_num [abs] at habs

/-- **C2 counterexample**: the merge is not a union keyed by id and is not
monotone.  A client whose local log holds the message with id `"1"`
receives a state whose `messages` is `[message "2"]`; after the merge the
locally observed message `"1"` is gone, and the result is not the claimed
local-then-remote union. -/
theorem chat_merge_not_monotone_counterexample :
    ({ id := "1", sender := "alice", text := "hi", timestamp := 100 } : ChatMessage) ∈
      ({ messages := [{ id := "1", sender := "alice", text := "hi", timestamp := 100 }] } :
        LocalView).messages ∧
    ({ id := "1", sender := "alice", text := "hi", timestamp := 100 } : ChatMessage) ∉
      (syncStateFromStorage
        { messages := [{ id := "1", sender := "alice", text := "hi", timestamp := 100 }] }
        { messages := some [{ id := "2", sender := "bob", text := "yo", timestamp := 200 }] }).messages ∧
    (syncStateFromStorage
        { messages := [{ id := "1", sender := "alice", text := "hi", timestamp := 100 }] }
        { messages := some [{ id := "2", sender := "bob", text := "yo", timestamp := 200 }] }).messages ≠
      [{ id := "1", sender := "alice", text := "hi", timestamp := 100 },
       { id := "2", sender := "bob", text := "yo", timestamp := 200 }] := by
  refine ⟨by decide, by decide, by decide⟩

/-- **C2 (amended)**: the merge of an incoming state replaces the client's
chat log wholesale with the incoming `messages` list whenever the incoming
state carries one (so a locally observed message absent from the incoming
list is removed — the log is not monotone per client's view), and leaves
the local log unchanged exactly when the incoming state has no `messages`
field. -/
theorem chat_merge_replaces (view : LocalView) (state : PartialState) :
    (∀ ms, state.messages = some ms → (syncStateFromStorage view state).messages = ms) ∧
    (state.messages = none → (syncStateFromStorage view state).messages = view.messages) := by
  constructor
  · intro ms hms
    simp [syncStateFromStorage, hms]
  · intro hnone
    simp [syncStateFromStorage, hnone]

/-- Witness for `chat_merge_replaces` on concrete logs. -/
theorem chat_merge_replaces_witness :
    (syncStateFromStorage
        { messages := [{ id := "1", sender := "alice", text := "hi", timestamp := 100 }] }
        { messages := some [{ id := "2", sender := "bob", text := "yo", timestamp := 200 }] }).messages =
      [{ id := "2", sender := "bob", text := "yo", timestamp := 200 }] ∧
    (syncStateFromStorage
        { messages := [{ id := "1", sender := "alice", text := "hi", timestamp := 100 }] }
        { isPlaying := some true }).messages =
      [{ id := "1", sender := "alice", text := "hi", timestamp := 100 }] :=
  ⟨(chat_merge_replaces _ _).1 _ rfl, (chat_merge_replaces _ _).2 rfl⟩

/-- **C3**: the merge is total (both `syncStateFromStorage` and the spread
in `updateSyncedState` are total functions) and every absent field of the
incoming state leaves the local value unchanged; an incoming state with no
fields at all leaves the entire view unchanged, and merging never touches
the locally observed playback position itself. -/
theorem merge_absent_fields_unchanged (view : LocalView) (state cur new : PartialState) :
    syncStateFromStorage view {} = view ∧
    (syncStateFromStorage view state).currentTime = view.currentTime ∧
    (state.videoSource = none →
      (syncStateFromStorage view state).videoSource = view.videoSource) ∧
    (state.isPlaying = none → (syncStateFromStorage view state).isPlaying = view.isPlaying) ∧
    (state.currentTime = none →
      (syncStateFromStorage view state).seekRequest = view.seekRequest) ∧
    (state.users = none → (syncStateFromStorage view state).users = view.users) ∧
    (state.messages = none → (syncStateFromStorage view state).messages = view.messages) ∧
    (new.partyCode = none → (spreadState cur new).partyCode = cur.partyCode) ∧
    (new.hostId = none → (spreadState cur new).hostId = cur.hostId) ∧
    (new.videoSource = none → (spreadState cur new).videoSource = cur.videoSource) ∧
    (new.isPlaying = none → (spreadState cur new).isPlaying = cur.isPlaying) ∧
    (new.currentTime = none → (spreadState cur new).currentTime = cur.currentTime) ∧
    (new.lastUpdateTimestamp = none →
      (spreadState cur new).lastUpdateTimestamp = cur.lastUpdateTimestamp) ∧
    (new.users = none → (spreadState cur new).users = cur.users) ∧
    (new.messages = none → (spreadState cur new).messages = cur.messages) := by
  refine ⟨rfl, rfl, ?_, ?_, ?_, ?_, ?_, ?_, ?_, ?_, ?_, ?_, ?_, ?_, ?_⟩ <;>
    intro h <;> simp [syncStateFromStorage, spreadState, h]

/-- Witness for `merge_absent_fields_unchanged` on a concrete view and a
partial state that only carries `isPlaying`. -/
theorem merge_absent_fields_unchanged_witness :
    (syncStateFromStorage
        { currentTime := 7, messages := [{ id := "1", sender := "a", text := "t", timestamp := 3 }] }
        { isPlaying := some true }).messages =
      [{ id := "1", sender := "a", text := "t", timestamp := 3 }] ∧
    (syncStateFromStorage
        { currentTime := 7, messages := [{ id := "1", sender := "a", text := "t", timestamp := 3 }] }
        { isPlaying := some true }).videoSource = none ∧
    (spreadState { isPlaying := some false } { messages := some [] }).isPlaying = some false :=
  ⟨(merge_absent_fields_unchanged _ { isPlaying := some true } {} {}).2.2.2.2.2.2.1 rfl,
   (merge_absent_fields_unchanged _ { isPlaying := some true } {} {}).2.2.1 rfl,
   (merge_absent_fields_unchanged {} {} { isPlaying := some false }
      { messages := some [] }).2.2.2.2.2.2.2.2.2.2.1 rfl⟩

/-- **C8 counterexample**: the second half of the claim fails — because
the merge replaces the local log with the remote one, a remote log that
itself contains two messages with the same id yields a merged result with
duplicate ids. -/
theorem chat_merge_idempotent_counterexample :
    ((syncStateFromStorage { messages := [] }
        { messages := some [{ id := "7", sender := "a", text := "x", timestamp := 1 },
                            { id := "7", sender := "a", text := "x", timestamp := 1 }] }).messages.map
      ChatMessage.id) = ["7", "7"] ∧
    ¬ ((syncStateFromStorage { messages := [] }
        { messages := some [{ id := "7", sender := "a", text := "x", timestamp := 1 },
                            { id := "7", sender := "a", text := "x", timestamp := 1 }] }).messages.map
      ChatMessage.id).Nodup := by
  refine ⟨by decide, by decide⟩

/-- **C8 (amended)**: merging the same remote state twice in succession
yields the same message sequence as merging it once (the merge replaces
the log, hence is idempotent), and the result has no duplicate message ids
provided the remote `chatLog` itself has none. -/
theorem chat_merge_idempotent (view : LocalView) (state : PartialState) :
    (syncStateFromStorage (syncStateFromStorage view state) state).messages
        = (syncStateFromStorage view state).messages ∧
    (∀ ms, state.messages = some ms → (ms.map ChatMessage.id).Nodup →
      ((syncStateFromStorage view state).messages.map ChatMessage.id).Nodup) := by
  constructor
  · cases hms : state.messages <;> simp [syncStateFromStorage, hms]
  · intro ms hms hnd
    simpa [syncStateFromStorage, hms] using hnd

/-- Witness for `chat_merge_idempotent` on a concrete duplicate-free
remote log. -/
theorem chat_merge_idempotent_witness :
    ((syncStateFromStorage { messages := [] }
        { messages := some [{ id := "7", sender := "a", text := "x", timestamp := 1 },
                            { id := "8", sender := "a", text := "y", timestamp := 2 }] }).messages.map
      ChatMessage.id).Nodup :=
  (chat_merge_idempotent _ _).2 _ rfl (by decide)

/-- **C4**: each of the three videoSource-changing operations (selecting a
local file, submitting a URL, choosing a sample) performs exactly one
state write; the single written state carries the new `videoSource`
together with `currentTime = 0` and `isPlaying = false`, atomically. -/
theorem video_change_resets_playback_atomically
    (medium : Medium) (view : LocalView) (partyCode fileName url urlInput : String)
    (rest : List (String × String)) (sample : VideoSource) (now : Nat)
    (hurl : urlInput ≠ "") :
    (∃ w, handleFileSelect medium view partyCode ((fileName, url) :: rest) now
          = ((storageKey partyCode, w) :: medium, syncStateFromStorage view w) ∧
        w.videoSource = some (some { type := .FILE, url := url, name := fileName }) ∧
        w.isPlaying = some false ∧ w.currentTime = some 0) ∧
    (∃ w, handleUrlSubmit medium view partyCode urlInput now
          = ((storageKey partyCode, w) :: medium, syncStateFromStorage view w) ∧
        (∃ ty, w.videoSource = some (some { type := ty, url := urlInput, name := "Streamed Video" })) ∧
        w.isPlaying = some false ∧ w.currentTime = some 0) ∧
    (∃ w, joinSample medium view partyCode sample now
          = ((storageKey partyCode, w) :: medium, syncStateFromStorage view w) ∧
        w.videoSource = some (some sample) ∧
        w.isPlaying = some false ∧ w.currentTime = some 0) := by
  refine ⟨?_, ?_, ?_⟩
  · refine ⟨publishedState medium partyCode (fileSelectUpdate fileName url view.messages now) now,
      rfl, ?_, ?_, ?_⟩ <;> simp [publishedState, spreadState, fileSelectUpdate]
  · refine ⟨publishedState medium partyCode (urlSubmitUpdate urlInput view.messages now) now,
      ?_, ⟨if strIncludes urlInput "youtube.com" || strIncludes urlInput "youtu.be" then
            VideoSourceType.YOUTUBE else VideoSourceType.DIRECT_URL, ?_⟩, ?_, ?_⟩
    · simp [handleUrlSubmit, hurl, updateSyncedState, Medium.setItem]
    · simp [publishedState, spreadState, urlSubmitUpdate]
    · simp [publishedState, spreadState, urlSubmitUpdate]
    · simp [publishedState, spreadState, urlSubmitUpdate]
  · refine ⟨publishedState medium partyCode (joinSampleUpdate sample view.messages now) now,
      rfl, ?_, ?_, ?_⟩ <;> simp [publishedState, spreadState, joinSampleUpdate]

/-- Witness for `video_change_resets_playback_atomically` on a concrete
party, file, URL and sample. -/
theorem video_change_resets_playback_atomically_witness :
    (∃ w, handleFileSelect [] {} "AB12" [("movie.mp4", "blob:a")] 5
          = ((storageKey "AB12", w) :: [], syncStateFromStorage {} w) ∧
        w.videoSource = some (some { type := .FILE, url := "blob:a", name := "movie.mp4" }) ∧
        w.isPlaying = some false ∧ w.currentTime = some 0) ∧
    (∃ w, handleUrlSubmit [] {} "AB12" "http://v.example/a.mp4" 5
          = ((storageKey "AB12", w) :: [], syncStateFromStorage {} w) ∧
        (∃ ty, w.videoSource
            = some (some { type := ty, url := "http://v.example/a.mp4", name := "Streamed Video" })) ∧
        w.isPlaying = some false ∧ w.currentTime = some 0) ∧
    (∃ w, joinSample [] {} "AB12" { type := .DIRECT_URL, url := "http://b", name := "Big Buck Bunny" } 5
          = ((storageKey "AB12", w) :: [], syncStateFromStorage {} w) ∧
        w.videoSource = some (some { type := .DIRECT_URL, url := "http://b", name := "Big Buck Bunny" }) ∧
        w.isPlaying = some false ∧ w.currentTime = some 0) :=
  video_change_resets_playback_atomically [] {} "AB12" "movie.mp4" "blob:a"
    "http://v.example/a.mp4" [] { type := .DIRECT_URL, url := "http://b", name := "Big Buck Bunny" }
    5 (by decide)

/-- **C5**: joining with a code unknown to the medium (after trimming and
upper-casing it) surfaces the verbatim party-not-found error and performs
no mutation at all — the medium is returned unchanged, so no roster or
chat entry is added anywhere.  Joining with a known code performs exactly
one write whose state appends the user to the roster and appends the one
system message announcing the join, leaving everything else in the stored
state intact. -/
theorem join_party_spec (medium : Medium) (user : User) (input : String) (now : Nat)
    (st : PartialState) (us : List User) (ms : List ChatMessage) :
    (jsTrim input ≠ "" →
      medium.getItem (storageKey (jsToUpper (jsTrim input))) = none →
      joinParty medium user input now
        = (medium, .notFound "Party not found. Check the code.")) ∧
    (jsTrim input ≠ "" →
      medium.getItem (storageKey (jsToUpper (jsTrim input))) = some st →
      st.users = some us → st.messages = some ms →
      joinParty medium user input now
        = ((storageKey (jsToUpper (jsTrim input)),
            { st with
                users := some (us ++ [user])
                messages := some (ms ++ [joinMessage user.name now]) }) :: medium,
           .joined)) := by
  constructor
  · intro hne hnone
    simp [joinParty, hne, hnone]
  · intro hne hsome hus hms
    simp [joinParty, hne, hsome, hus, hms, Medium.setItem]

/-- Witness for `join_party_spec`: joining `"ZZZZZZ"` against the empty
medium fails with the party-not-found error and leaves the medium empty;
joining `" abc123 "` (normalized to `ABC123`) against a freshly created
party appends the joiner and the announcement. -/
theorem join_party_spec_witness :
    joinParty [] { id := "u2", name := "bob" } "ZZZZZZ" 70
      = ([], .notFound "Party not found. Check the code.") ∧
    joinParty (createParty [] { id := "u1", name := "alice" } "ABC123" 10)
        { id := "u2", name := "bob" } " abc123 " 70
      = ((storageKey "ABC123",
          { createdInitialState { id := "u1", name := "alice" } "ABC123" 10 with
              users := some [{ id := "u1", name := "alice", isHost := true },
                             { id := "u2", name := "bob" }]
              messages := some (creationLog "ABC123" 10
                ++ [joinMessage "bob" 70]) }) :: createParty [] { id := "u1", name := "alice" } "ABC123" 10,
         .joined) := by
  constructor
  · exact (join_party_spec [] { id := "u2", name := "bob" } "ZZZZZZ" 70 {} [] []).1
      (by decide) rfl
  · exact (join_party_spec _ { id := "u2", name := "bob" } " abc123 " 70
      (createdInitialState { id := "u1", name := "alice" } "ABC123" 10)
      [{ id := "u1", name := "alice", isHost := true }] (creationLog "ABC123" 10)).2
      (by decide) (by decide) rfl rfl

/-- **C6**: when the responder was actually reached (an API key is
configured) and it throws or returns empty/absent text, the AI-reply path
appends exactly one `isAi` message and never surfaces an exception (every
function involved is total); the appended text is the fixed apology
constant when the responder throws and the fixed placeholder constant when
it returns empty text — in both cases a constant independent of the chat
history and the user's input. -/
theorem ai_failure_fallback (medium : Medium) (view : LocalView)
    (partyCode : String) (user : User) (input apiKey : String)
    (outcome : ResponderOutcome) (tsUser tsAi : Nat)
    (hin : jsTrim input ≠ "") (hkey : apiKey ≠ "")
    (hfail : (∃ e, outcome = .throws e) ∨ outcome = .returns none ∨ outcome = .returns (some "")) :
    ∃ reply,
      (handleSubmitAi medium view partyCode user input apiKey outcome tsUser tsAi).2.messages
        = view.messages ++ [userMessage user.name input tsUser, aiMessage reply tsAi] ∧
      (((handleSubmitAi medium view partyCode user input apiKey outcome tsUser tsAi).2.messages.drop
          view.messages.length).filter (fun m => m.isAi)).length = 1 ∧
      (∀ e, outcome = .throws e → reply = errorFallbackText) ∧
      (outcome = .returns none ∨ outcome = .returns (some "") → reply = emptyResponseText) := by
  refine ⟨generateAiChatResponse apiKey outcome, ?_, ?_, ?_, ?_⟩
  · simp [handleSubmitAi, hin, handleSendMessage, handleAiResponse, updateSyncedState,
      publishedState, spreadState, syncStateFromStorage]
  · simp [handleSubmitAi, hin, handleSendMessage, handleAiResponse, updateSyncedState,
      publishedState, spreadState, syncStateFromStorage, userMessage, aiMessage]
  · rintro e rfl
    simp [generateAiChatResponse, hkey]
  · rintro (rfl | rfl) <;> simp [generateAiChatResponse, hkey]

/-- Witness for `ai_failure_fallback`: a throwing responder on a concrete
chat yields exactly the fixed apology as the one appended AI message, and
an empty-text response yields exactly the fixed placeholder. -/
theorem ai_failure_fallback_witness :
    (∃ reply,
      (handleSubmitAi [] {} "AB" { id := "u1", name := "alice" } "hello" "key"
          (.throws "boom") 100 200).2.messages
        = [] ++ [userMessage "alice" "hello" 100, aiMessage reply 200] ∧
      (((handleSubmitAi [] {} "AB" { id := "u1", name := "alice" } "hello" "key"
          (.throws "boom") 100 200).2.messages.drop
          (List.length ([] : List ChatMessage))).filter (fun m => m.isAi)).length = 1 ∧
      (∀ e, ResponderOutcome.throws "boom" = .throws e → reply = errorFallbackText) ∧
      (ResponderOutcome.throws "boom" = .returns none ∨
          ResponderOutcome.throws "boom" = .returns (some "") → reply = emptyResponseText)) ∧
    (∃ reply,
      (handleSubmitAi [] {} "AB" { id := "u1", name := "alice" } "hello" "key"
          (.returns (some "")) 100 200).2.messages
        = [] ++ [userMessage "alice" "hello" 100, aiMessage reply 200] ∧
      (((handleSubmitAi [] {} "AB" { id := "u1", name := "alice" } "hello" "key"
          (.returns (some "")) 100 200).2.messages.drop
          (List.length ([] : List ChatMessage))).filter (fun m => m.isAi)).length = 1 ∧
      (∀ e, ResponderOutcome.returns (some "") = .throws e → reply = errorFallbackText) ∧
      (ResponderOutcome.returns (some "") = .returns none ∨
          ResponderOutcome.returns (some "") = .returns (some "") → reply = emptyResponseText)) :=
  ⟨ai_failure_fallback [] {} "AB" { id := "u1", name := "alice" } "hello" "key"
      (.throws "boom") 100 200 (by decide) (by decide) (Or.inl ⟨"boom", rfl⟩),
   ai_failure_fallback [] {} "AB" { id := "u1", name := "alice" } "hello" "key"
      (.returns (some "")) 100 200 (by decide) (by decide) (Or.inr (Or.inr rfl))⟩

/-- **C7 counterexample**: the code filters by sender string only
(`m.isAi || m.sender === currentUser.name`), so for a local user whose
display name is `System`, a system announcement (a message with
`isSystem: true`) is passed to the responder as history, which the claim
forbids. -/
theorem ai_history_counterexample :
    aiHistory [sysAnnouncement] sysNamedUser = [{ role := "user", content := "hello" }] ∧
    sysAnnouncement.isSystem = true ∧
    aiHistory [sysAnnouncement] sysNamedUser
      ≠ claimedHistory [sysAnnouncement] sysNamedUser := by
  refine ⟨by decide, by decide, by decide⟩

/-- **C7 (amended)**: the history passed to the responder consists of
exactly the most recent at-most-6 messages among those that are AI
messages or whose sender field equals the local user's display name
(system messages and messages from other users are excluded exactly when
their sender string differs from the local user's name), role-tagged
`model` for AI messages and `user` otherwise, in their original order;
in particular it never exceeds 6 entries. -/
theorem ai_history_amended (messages : List ChatMessage) (currentUser : User) :
    aiHistory messages currentUser = amendedHistory messages currentUser ∧
    (aiHistory messages currentUser).length ≤ 6 := by
  have hrt : ∀ (l : List ChatMessage), takeLast 6 l = (l.reverse.take 6).reverse := by
    intro l
    rw [takeLast, ← List.rtake, List.rtake_eq_reverse_take_reverse]
  constructor
  · rw [aiHistory, amendedHistory, hrt]
  · rw [aiHistory, hrt, List.length_map, List.length_reverse]
    exact (List.length_take_le _ _)

/-- `Nat.toDigitsCore` at base 10 computes `decChars` once the fuel is
positive and large enough. -/
theorem toDigitsCore_eq_decChars :
    ∀ (fuel n : Nat) (acc : List Char), 0 < fuel → n < 10 ^ fuel →
      Nat.toDigitsCore 10 fuel n acc = decChars n ++ acc := by
  intro fuel
  induction fuel with
  | zero => intro n acc h _; omega
  | succ f ih =>
      intro n acc _ hlt
      by_cases h10 : n < 10
      · have hdiv : n / 10 = 0 := Nat.div_eq_of_lt h10
        rw [Nat.toDigitsCore]
        simp only [hdiv, if_pos rfl]
        rw [decChars]
        simp [h10, Nat.mod_eq_of_lt h10]
      · have hdiv : ¬ n / 10 = 0 := by
          intro hz
          exact h10 ((Nat.div_eq_zero_iff (by omega)).mp hz)
        have hf : 0 < f := by
          rcases f with _ | f
          · exfalso
            rw [pow_one] at hlt
            omega
          · omega
        have hlt' : n / 10 < 10 ^ f := by
          rw [Nat.div_lt_iff_lt_mul (by omega)]
          calc n < 10 ^ (f + 1) := hlt
          _ = 10 ^ f * 10 := by rw [pow_succ]
        rw [Nat.toDigitsCore]
        simp only [hdiv, if_neg hdiv]
        rw [ih (n / 10) (Nat.digitChar (n % 10) :: acc) hf hlt']
        conv_rhs => rw [decChars]
        simp [h10, List.append_assoc]

/-- `Nat.repr` is the decimal digit string `decChars`. -/
theorem repr_eq_decChars (n : Nat) : Nat.repr n = (decChars n).asString := by
  have h1 : n < 2 ^ n := Nat.lt_two_pow n
  have h2 : (2 : Nat) ^ n ≤ 10 ^ n := Nat.pow_le_pow_left (by omega) n
  have h3 : (10 : Nat) ^ n ≤ 10 ^ (n + 1) := Nat.pow_le_pow_right (by omega) (Nat.le_succ n)
  show (Nat.toDigits 10 n).asString = _
  rw [Nat.toDigits, toDigitsCore_eq_decChars (n + 1) n [] (Nat.succ_pos n) (by omega),
    List.append_nil]

/-- `Nat.digitChar` is injective on digits. -/
theorem digitChar_inj_lt :
    ∀ a < 10, ∀ b < 10, Nat.digitChar a = Nat.digitChar b → a = b := by decide

/-- A decimal digit string is never empty. -/
theorem decChars_ne_nil (n : Nat) : decChars n ≠ [] := by
  rw [decChars]
  split <;> simp

/-- Peel the least significant digit off `decChars`. -/
theorem decChars_eq (n : Nat) :
    decChars n = (if n < 10 then [] else decChars (n / 10)) ++ [Nat.digitChar (n % 10)] := by
  rw [decChars]
  split
  · next h => simp [h, Nat.mod_eq_of_lt h]
  · next h => simp [h]

/-- Distinct naturals have distinct decimal digit strings. -/
theorem decChars_injective : Function.Injective decChars := by
  intro m
  induction m using Nat.strong_induction_on with
  | _ m ih =>
      intro n h
      rw [decChars_eq m, decChars_eq n] at h
      obtain ⟨hpre, hlast⟩ := List.append_inj' h (by simp)
      have hmod : m % 10 = n % 10 :=
        digitChar_inj_lt _ (Nat.mod_lt _ (by omega)) _ (Nat.mod_lt _ (by omega))
          (by simpa using hlast)
      by_cases hm : m < 10 <;> by_cases hn : n < 10
      · rw [Nat.mod_eq_of_lt hm, Nat.mod_eq_of_lt hn] at hmod
        exact hmod
      · rw [if_pos hm, if_neg hn] at hpre
        exact absurd hpre.symm (decChars_ne_nil _)
      · rw [if_neg hm, if_pos hn] at hpre
        exact absurd hpre (decChars_ne_nil _)
      · rw [if_neg hm, if_neg hn] at hpre
        have hdiv := ih (m / 10) (Nat.div_lt_self (by omega) (by omega)) hpre
        omega

/-- `Nat.repr` (hence JavaScript's `Date.now().toString()`) is
injective. -/
theorem nat_repr_injective : Function.Injective Nat.repr := by
  intro m n h
  rw [repr_eq_decChars, repr_eq_decChars] at h
  exact decChars_injective (congrArg String.data h)

/-- Every character of a decimal digit string is a digit. -/
theorem decChars_mem_digits (n : Nat) :
    ∀ c ∈ decChars n, c ∈ ['0', '1', '2', '3', '4', '5', '6', '7', '8', '9'] := by
  induction n using Nat.strong_induction_on with
  | _ n ih =>
      intro c hc
      rw [decChars_eq n] at hc
      have hdig : ∀ d < 10, Nat.digitChar d ∈
          ['0', '1', '2', '3', '4', '5', '6', '7', '8', '9'] := by decide
      rcases List.mem_append.mp hc with h | h
      · rcases Nat.lt_or_ge n 10 with hn | hn
        · rw [if_pos hn] at h
          simp at h
        · rw [if_neg (by omega)] at h
          exact ih (n / 10) (Nat.div_lt_self (by omega) (by omega)) c h
      · have hc' : c = Nat.digitChar (n % 10) := by simpa using h
        rw [hc']
        exact hdig _ (Nat.mod_lt _ (by omega))

/-- The fixed creation-message id `sys_init` never collides with a
timestamp id. -/
theorem sys_init_ne_repr (n : Nat) : "sys_init" ≠ Nat.repr n := by
  intro h
  rw [repr_eq_decChars] at h
  have hdata : "sys_init".data = decChars n := congrArg String.data h
  have hs : 's' ∈ decChars n := by
    rw [← hdata]
    decide
  exact absurd (decChars_mem_digits n 's' hs) (by decide)

/-- Every message-producing operation stamps its message with the decimal
string of its timestamp. -/
theorem opMessage_id (op : ChatOp) (ts : Nat) : (opMessage op ts).id = Nat.repr ts := by
  cases op <;> rfl

/-- The ids of a run are the initial log's ids followed by the decimal
timestamps of the operations. -/
theorem runChatOps_map_id (log : List ChatMessage) (ops : List (ChatOp × Nat)) :
    (runChatOps log ops).map ChatMessage.id
      = log.map ChatMessage.id ++ ops.map (fun p => Nat.repr p.2) := by
  induction ops generalizing log with
  | nil => simp [runChatOps]
  | cons p ops ih =>
      show (runChatOps (log ++ [opMessage p.1 p.2]) ops).map ChatMessage.id = _
      rw [ih]
      simp [opMessage_id]

/-- **C9 counterexample**: message ids are millisecond timestamps, so two
message-producing operations in the same millisecond collide.  Starting
from a freshly created party, a user send and a system announcement both
stamped `100` yield a chat log whose ids `["sys_init", "100", "100"]`
contain a duplicate. -/
theorem chat_ids_unique_counterexample :
    ((runChatOps (creationLog "AB" 50)
        [(.sendUser { id := "u1", name := "alice" } "hi", 100),
         (.announce "bob joined the party.", 100)]).map ChatMessage.id)
      = ["sys_init", "100", "100"] ∧
    ¬ ((runChatOps (creationLog "AB" 50)
        [(.sendUser { id := "u1", name := "alice" } "hi", 100),
         (.announce "bob joined the party.", 100)]).map ChatMessage.id).Nodup := by
  refine ⟨by decide, by decide⟩

/-- **C9 (amended)**: in any run of message-producing operations starting
from a freshly created party, all chat message ids are pairwise distinct
provided the operations carry pairwise distinct millisecond timestamps
(ids are `Date.now().toString()`, so operations falling in the same
millisecond collide; the creation message's fixed id `sys_init` never
collides with a timestamp id). -/
theorem chat_ids_unique (code : String) (ts0 : Nat) (ops : List (ChatOp × Nat))
    (h : (ops.map Prod.snd).Nodup) :
    ((runChatOps (creationLog code ts0) ops).map ChatMessage.id).Nodup := by
  rw [runChatOps_map_id]
  have hids : (ops.map fun p => Nat.repr p.2) = (ops.map Prod.snd).map Nat.repr := by
    simp [List.map_map]
  show (("sys_init" :: []) ++ ops.map fun p => Nat.repr p.2).Nodup
  rw [List.singleton_append, List.nodup_cons]
  refine ⟨?_, ?_⟩
  · intro hmem
    obtain ⟨p, -, hp⟩ := List.mem_map.mp hmem
    exact sys_init_ne_repr p.2 hp.symm
  · rw [hids]
    exact h.map nat_repr_injective

/-- Witness for `chat_ids_unique` on a concrete run with distinct
timestamps. -/
theorem chat_ids_unique_witness :
    ((runChatOps (creationLog "AB" 50)
        [(.sendUser { id := "u1", name := "alice" } "hi", 100),
         (.aiReply "hey", 101)]).map ChatMessage.id).Nodup :=
  chat_ids_unique "AB" 50
    [(.sendUser { id := "u1", name := "alice" } "hi", 100), (.aiReply "hey", 101)]
    (by decide)

end WatchParty
